import Mathlib

/-!
Verification of the row-normalization pipeline in `src/catch/113.py`
(CEEC-quicker).  The Python program downloads one admissions-results PDF,
extracts table rows, normalizes a fixed 7-column subset into typed records
and writes them to JSON.  Here the two functions carrying the decision
logic, `download_and_parse_pdf` and `clean_and_structure_data`, are embedded
shallowly: a raw cell is `Option String` (pdfplumber yields `None` or text),
a record value is one of string / integer / float / null, and the network
and PDF-library effects of `download_and_parse_pdf` are passed in as
explicit outcome values.  Python floats produced by `float(...)` on finite
decimal literals are modelled as exact rationals; the special forms
(`inf`, `nan`, underscore separators, non-ASCII digits) never reach a claim
and are modelled as parse failures.
-/

/-- One extracted table row: an ordered sequence of optional text cells. -/
abbrev RawRow := List (Option String)

/-- A value stored in a normalized record: Python str, int, float or None.
Floats are modelled as exact rationals. -/
inductive Value where
  | str (s : String)
  | int (n : Int)
  | float (q : Rat)
  | null
deriving DecidableEq, Repr

/-- Python truthiness of a record value: `None`, `0`, `0.0` and `""` are
falsy, everything else is truthy. -/
def Value.truthy : Value → Bool
  | .str s => !(s = "")
  | .int n => !(n = 0)
  | .float q => !(q = 0)
  | .null => false

/-- A normalized record: field names paired with values, in insertion
order (Python dict preserves insertion order). -/
abbrev Record := List (String × Value)

/-- Characters accepted by Python `str.isspace()` / stripped by
`str.strip()` with no argument. -/
def isPySpace (c : Char) : Bool :=
  c = ' ' || c = '\t' || c = '\n' || c = '\r' ||
  c.toNat = 0x0b || c.toNat = 0x0c ||
  c.toNat = 0x1c || c.toNat = 0x1d || c.toNat = 0x1e || c.toNat = 0x1f ||
  c.toNat = 0x85 || c.toNat = 0xa0 || c.toNat = 0x1680 ||
  (0x2000 ≤ c.toNat && c.toNat ≤ 0x200a) ||
  c.toNat = 0x2028 || c.toNat = 0x2029 || c.toNat = 0x202f ||
  c.toNat = 0x205f || c.toNat = 0x3000

/-- Strip `isPySpace` characters from both ends of a character list. -/
def stripChars (l : List Char) : List Char :=
  ((l.dropWhile isPySpace).reverse.dropWhile isPySpace).reverse

/-- Python `s.strip()` (no argument). -/
def pyStrip (s : String) : String :=
  String.mk (stripChars s.toList)

/-- Python `s.replace('\n', ' ')`: every newline character becomes one
space. -/
def pyReplaceNewline (s : String) : String :=
  String.mk (s.toList.map (fun c => if c = '\n' then ' ' else c))

/-- Test whether `pat` is an initial segment of `l`. -/
def matchAt : List Char → List Char → Bool
  | [], _ => true
  | _ :: _, [] => false
  | p :: ps, c :: cs => p = c && matchAt ps cs

/-- Test whether `pat` occurs as a contiguous sublist of `l`. -/
def hasSub (pat : List Char) : List Char → Bool
  | [] => matchAt pat []
  | c :: cs => matchAt pat (c :: cs) || hasSub pat cs

/-- Python's `pat in s` substring test. -/
def containsStr (s pat : String) : Bool :=
  hasSub pat.toList s.toList

/-- Value of a non-empty all-ASCII-digit character list, `none` otherwise. -/
def digitsVal? (cs : List Char) : Option Nat :=
  if !(cs = []) && cs.all Char.isDigit then
    some (cs.foldl (fun a c => a * 10 + (c.toNat - 48)) 0)
  else
    none

/-- Optional sign followed by a non-empty digit run, as an integer. -/
def parseSignedInt? : List Char → Option Int
  | '+' :: rest => (digitsVal? rest).map Int.ofNat
  | '-' :: rest => (digitsVal? rest).map (fun n => -(Int.ofNat n))
  | cs => (digitsVal? cs).map Int.ofNat

/-- Python `int(s)` on a text cell: surrounding whitespace is ignored,
then an optional sign and a non-empty digit run. -/
def pyInt? (s : String) : Option Int :=
  parseSignedInt? (stripChars s.toList)

/-- Split a character list at the first character satisfying `p`:
the part before it, and (when found) the part after it. -/
def splitOnChar (p : Char → Bool) : List Char → List Char × Option (List Char)
  | [] => ([], none)
  | c :: cs =>
    if p c then ([], some cs)
    else
      let r := splitOnChar p cs
      (c :: r.1, r.2)

/-- Numeric value of a (possibly empty) digit run. -/
def digitsFold (cs : List Char) : Nat :=
  cs.foldl (fun a c => a * 10 + (c.toNat - 48)) 0

/-- Unsigned decimal mantissa accepted by Python `float`:
`digits`, `digits.`, `.digits` or `digits.digits`; the value
`intPart + fracPart / 10 ^ length fracPart` written as one quotient. -/
def parseUFloat? (cs : List Char) : Option Rat :=
  match splitOnChar (fun c => c = '.') cs with
  | (intPart, none) => (digitsVal? intPart).map (fun n => Rat.divInt (Int.ofNat n) 1)
  | (intPart, some fracPart) =>
    if intPart = [] && fracPart = [] then none
    else if intPart.all Char.isDigit && fracPart.all Char.isDigit then
      some (Rat.divInt
        (Int.ofNat (digitsFold intPart * 10 ^ fracPart.length + digitsFold fracPart))
        (Int.ofNat (10 ^ fracPart.length)))
    else none

/-- Compute `m * 10 ^ e` for a rational mantissa `m` and integer exponent `e`. -/
def applyExp10 (m : Rat) : Int → Rat
  | .ofNat n => Rat.divInt (m.num * Int.ofNat (10 ^ n)) (Int.ofNat m.den)
  | .negSucc n => Rat.divInt m.num (Int.ofNat (m.den * 10 ^ (n + 1)))

/-- Python `float(s)` on a text cell, restricted to finite decimal
literals: surrounding whitespace ignored, optional sign, mantissa with
optional decimal point, optional decimal exponent. -/
def pyFloat? (s : String) : Option Rat :=
  let cs := stripChars s.toList
  let em := splitOnChar (fun c => c = 'e' || c = 'E') cs
  let signedMant : Option Rat :=
    match em.1 with
    | '+' :: rest => parseUFloat? rest
    | '-' :: rest => (parseUFloat? rest).map Rat.neg
    | rest => parseUFloat? rest
  match signedMant, em.2 with
  | none, _ => none
  | some m, none => some m
  | some m, some ecs => (parseSignedInt? ecs).map (applyExp10 m)

/-- The 7 retained column names, in output order
(`selected_columns` in the source). -/
def selected_columns : List String :=
  ["系組代碼", "校名", "系組名", "採計及加權",
   "錄取人數(含外加)", "普通生錄取分數", "普通生同分參酌"]

/-- Cell cleaning:
`row[i].strip().replace('\n', ' ') if row[i] and row[i].strip() else None`. -/
def cleanCell : Option String → Option String
  | none => none
  | some s =>
    if s ≠ "" ∧ pyStrip s ≠ "" then some (pyReplaceNewline (pyStrip s))
    else none

/-- The five-hyphen no-data sentinel:
`if cell_value and '-----' in cell_value: cell_value = None`. -/
def applyPlaceholder : Option String → Option String
  | none => none
  | some s => if s ≠ "" ∧ containsStr s "-----" = true then none else some s

/-- The value stored for column `col` given the raw cell at its position:
clean, apply the placeholder rule, then coerce the two numeric columns
(`try: ... except ValueError: pass` keeps the original string). -/
def fieldValue (col : String) (cell : Option String) : Value :=
  match applyPlaceholder (cleanCell cell) with
  | none => Value.null
  | some s =>
    if col = "錄取人數(含外加)" ∨ col = "普通生錄取分數" then
      if s.toList.contains '.' then
        match pyFloat? s with
        | some q => Value.float q
        | none => Value.str s
      else
        if col = "錄取人數(含外加)" then
          match pyInt? s with
          | some n => Value.int n
          | none => Value.str s
        else
          if s.toList.contains '.' then
            match pyFloat? s with
            | some q => Value.float q
            | none => Value.str s
          else
            match pyInt? s with
            | some n => Value.int n
            | none => Value.str s
    else Value.str s

/-- The record built from the first 7 cells of a row:
`for i, col_name in enumerate(selected_columns): cleaned_row[col_name] = ...`. -/
def buildRecord (row : RawRow) : Record :=
  selected_columns.enum.map (fun ic => (ic.2, fieldValue ic.2 (row.getD ic.1 none)))

/-- Blank-row test `not row or not any(row)`: the row is empty or every
cell is `None` or the empty string. -/
def rowBlank (row : RawRow) : Bool :=
  row.all (fun c => c.getD "" = "")

/-- First cell as text: `str(row[0]) if row[0] else ''`. -/
def firstCellText (row : RawRow) : String :=
  match row.headD none with
  | some s => s
  | none => ""

/-- Header-marker test: `'系組代碼' in first_cell or '校名' in first_cell`. -/
def hasHeaderMarker (row : RawRow) : Bool :=
  containsStr (firstCellText row) "系組代碼" || containsStr (firstCellText row) "校名"

/-- Lookup `cleaned_row.get('系組代碼')` with `None` for a missing key. -/
def lookupCode (r : Record) : Value :=
  (r.lookup "系組代碼").getD Value.null

/-- The body of the per-row loop of `clean_and_structure_data`: `none`
when the row is filtered out, otherwise the record appended to the
output list. -/
def processRow (row : RawRow) : Option Record :=
  if rowBlank row then none
  else if hasHeaderMarker row then none
  else if row.length < 7 then none
  else
    let r := buildRecord row
    if (lookupCode r).truthy then some r else none

/-- The Normalizer `clean_and_structure_data(rows)`: return `[]` on an empty input,
otherwise process every row after the first in order. -/
def clean_and_structure_data (rows : List RawRow) : List Record :=
  match rows with
  | [] => []
  | _ :: rest => rest.filterMap processRow

/-- A row every filter lets through: not blank, no header marker in the
first cell, at least 7 cells, and a code cell that is truthy after
cleaning and placeholder substitution. -/
def isDataRow (row : RawRow) : Bool :=
  !rowBlank row && !hasHeaderMarker row && decide (7 ≤ row.length) &&
    (lookupCode (buildRecord row)).truthy

/-- Why the HTTP GET in `download_and_parse_pdf` can raise
(`requests.exceptions.RequestException`): timeout, connection failure, or
`raise_for_status` on a non-success status code. -/
inductive FetchError where
  | timeout
  | connectionFailure
  | badStatus
deriving DecidableEq, Repr

/-- Outcome of `requests.get(url, timeout=30)` followed by
`raise_for_status()`. -/
inductive FetchResult where
  | failure (e : FetchError)
  | success
deriving DecidableEq, Repr

/-- One PDF page as seen by the extraction loop: what
`page.extract_table` returns under the ruled-line strategy and under the
text-alignment strategy (`none` models a `None` return). -/
structure PdfPage where
  linesTable : Option (List RawRow)
  textTable : Option (List RawRow)
deriving DecidableEq, Repr

/-- Outcome of `pdfplumber.open` and the page loop: `failure` models any
exception raised inside the `try` block, `success` carries the pages. -/
inductive ParseResult where
  | failure
  | success (pages : List PdfPage)
deriving DecidableEq, Repr

/-- The rows one page contributes: the ruled-line table if it is not
`None`, otherwise the text-alignment table; a falsy table (`None` or the
empty list) contributes nothing (`if table: all_rows.extend(table)`). -/
def extractPageRows (p : PdfPage) : List RawRow :=
  let table :=
    match p.linesTable with
    | some t => some t
    | none => p.textTable
  match table with
  | some t => t
  | none => []

/-- All rows accumulated over the pages, in page order. -/
def allRows : ParseResult → List RawRow
  | .failure => []
  | .success pages => (pages.map extractPageRows).flatten

/-- The fetch-and-extract stage `download_and_parse_pdf(url)` over the
outcomes of its two effects:
`None` on a fetch exception, `None` on a parse exception, `None` when no
rows were accumulated, otherwise the accumulated rows. -/
def download_and_parse_pdf (fetch : FetchResult) (parse : ParseResult) :
    Option (List RawRow) :=
  match fetch with
  | .failure _ => none
  | .success =>
    match parse with
    | .failure => none
    | .success pages =>
      let all_rows := (pages.map extractPageRows).flatten
      if all_rows.isEmpty then none else some all_rows

/-- A well-formed data row used to instantiate the universally
quantified theorems. -/
def sampleRow1 : RawRow :=
  [some "001A", some "國立臺灣大學", some "資訊工程學系", some "國x1 英x1 數Ax1",
   some "120", some "450.5", some "同分參酌第3類"]

/-- A second data row, with a placeholder score cell. -/
def sampleRow2 : RawRow :=
  [some "002B", some "國立清華大學", some "電機工程學系", some "英x2 數Ax1",
   some "45", some "-----", some "-----"]

/-- A third data row, with a newline inside the institution cell. -/
def sampleRow3 : RawRow :=
  [some "003C", some "國立成功\n大學", some "機械系", some "數Ax2",
   some "60", some "399", some "普通"]

/-- The leading header row of the table. -/
def headerRow : RawRow :=
  [some "系組代碼", some "校名", some "系組名", some "採計及加權",
   some "錄取人數(含外加)", some "普通生錄取分數", some "普通生同分參酌"]

/-- A repeated page-boundary header row whose first cell contains the
institution marker. -/
def repeatedHeaderRow : RawRow :=
  [some "校名/系組代碼", some "校名", some "系組名", some "採計及加權",
   some "錄取人數(含外加)", some "普通生錄取分數", some "普通生同分參酌"]

/-- A full 7-cell data row whose first cell merely contains the
institution marker as a substring. -/
def markerDataRow : RawRow :=
  [some "不是校名的代碼", some "大學", some "系", some "採計",
   some "80", some "400", some "普通"]

/-- A row with fewer than 7 cells. -/
def shortRow : RawRow :=
  [some "004D", some "大學", some "系"]

/-- An 8-cell data row, for the truncation property. -/
def longRow : RawRow :=
  sampleRow1 ++ [some "多餘的第八欄"]

/-- A 7-cell row whose code cell is the five-hyphen placeholder. -/
def placeholderCodeRow : RawRow :=
  [some "-----", some "大學", some "系", some "採計", some "80", some "400", some "普通"]

/-- Pages fed to the fetch/extract model in the witnesses: one page with
a ruled-line table, one page where both strategies fail. -/
def pagesSample : List PdfPage :=
  [⟨some [sampleRow1], none⟩, ⟨none, none⟩]

/-! ## Helper lemmas -/

theorem buildRecord_explicit (row : RawRow) :
    buildRecord row =
      [("系組代碼", fieldValue "系組代碼" (row.getD 0 none)),
       ("校名", fieldValue "校名" (row.getD 1 none)),
       ("系組名", fieldValue "系組名" (row.getD 2 none)),
       ("採計及加權", fieldValue "採計及加權" (row.getD 3 none)),
       ("錄取人數(含外加)", fieldValue "錄取人數(含外加)" (row.getD 4 none)),
       ("普通生錄取分數", fieldValue "普通生錄取分數" (row.getD 5 none)),
       ("普通生同分參酌", fieldValue "普通生同分參酌" (row.getD 6 none))] := rfl

theorem lookupCode_buildRecord (row : RawRow) :
    lookupCode (buildRecord row) = fieldValue "系組代碼" (row.getD 0 none) := rfl

theorem processRow_eq_some {row : RawRow} (h : isDataRow row = true) :
    processRow row = some (buildRecord row) := by
  simp only [isDataRow, Bool.and_eq_true, Bool.not_eq_true', decide_eq_true_eq] at h
  obtain ⟨⟨⟨h1, h2⟩, h3⟩, h4⟩ := h
  simp [processRow, h1, h2, h4, Nat.not_lt.mpr h3]

theorem processRow_marker_none {row : RawRow} (h : hasHeaderMarker row = true) :
    processRow row = none := by
  simp [processRow, h]

theorem filterMap_processRow_eq_map {l : List RawRow}
    (h : ∀ r ∈ l, isDataRow r = true) :
    l.filterMap processRow = l.map buildRecord := by
  induction l with
  | nil => rfl
  | cons a t ih =>
    rw [List.filterMap_cons, processRow_eq_some (h a (by simp)), List.map_cons,
      ih (fun r hr => h r (by simp [hr]))]

theorem getD_take_lt {α : Type} (l : List α) (n i : Nat) (d : α) (h : i < n) :
    (l.take n).getD i d = l.getD i d := by
  induction l generalizing n i with
  | nil => simp
  | cons a t ih =>
    cases n with
    | zero => omega
    | succ m =>
      cases i with
      | zero => simp
      | succ j =>
        simp only [List.take_succ_cons, List.getD_cons_succ]
        exact ih m j (by omega)

theorem buildRecord_take (row : RawRow) :
    buildRecord (row.take 7) = buildRecord row := by
  rw [buildRecord_explicit, buildRecord_explicit]
  rw [getD_take_lt row 7 0 none (by omega), getD_take_lt row 7 1 none (by omega),
    getD_take_lt row 7 2 none (by omega), getD_take_lt row 7 3 none (by omega),
    getD_take_lt row 7 4 none (by omega), getD_take_lt row 7 5 none (by omega),
    getD_take_lt row 7 6 none (by omega)]

theorem firstCellText_take (row : RawRow) (n : Nat) (h : 0 < n) :
    firstCellText (row.take n) = firstCellText row := by
  cases row with
  | nil => simp
  | cons a t =>
    cases n with
    | zero => omega
    | succ m => rfl

theorem rowBlank_take (row : RawRow) (n : Nat) (h : rowBlank row = true) :
    rowBlank (row.take n) = true := by
  simp only [rowBlank, List.all_eq_true] at h ⊢
  exact fun c hc => h c (List.take_subset n row hc)

theorem cleanCell_falsy {c : Option String} (h : c.getD "" = "") :
    cleanCell c = none := by
  cases c with
  | none => rfl
  | some s =>
    have hs : s = "" := by simpa using h
    subst hs
    simp [cleanCell]

theorem processRow_take (row : RawRow) : processRow row = processRow (row.take 7) := by
  by_cases hlen : 7 ≤ row.length
  case neg =>
    rw [List.take_of_length_le (by omega)]
  case pos =>
    have hlen7 : (row.take 7).length = 7 := by rw [List.length_take]; omega
    by_cases hb : rowBlank row = true
    · simp only [processRow, if_pos hb, if_pos (rowBlank_take row 7 hb)]
    · have hbF : rowBlank row = false := by simpa using hb
      by_cases hbt : rowBlank (row.take 7) = true
      · cases row with
        | nil => simp at hlen
        | cons a t =>
          have ha : a.getD "" = "" := by
            simp only [List.take_succ_cons, rowBlank, List.all_cons,
              Bool.and_eq_true, decide_eq_true_eq] at hbt
            exact hbt.1
          have hnull : fieldValue "系組代碼" ((a :: t).getD 0 none) = Value.null := by
            have hcc : cleanCell a = none := cleanCell_falsy ha
            simp [fieldValue, List.getD_cons_zero, hcc, applyPlaceholder]
          have htr : (lookupCode (buildRecord (a :: t))).truthy = false := by
            rw [lookupCode_buildRecord, hnull]; rfl
          have h1 : processRow (a :: t) = none := by
            simp only [processRow, if_neg (by simp [hbF] : ¬rowBlank (a :: t) = true)]
            split
            · rfl
            · split
              · rfl
              · simp [htr]
          have h2 : processRow ((a :: t).take 7) = none := by
            simp only [processRow, if_pos hbt]
          rw [h1, h2]
      · have hbtF : rowBlank (row.take 7) = false := by simpa using hbt
        have hfc : firstCellText (row.take 7) = firstCellText row :=
          firstCellText_take row 7 (by omega)
        have hmk : hasHeaderMarker (row.take 7) = hasHeaderMarker row := by
          simp [hasHeaderMarker, hfc]
        simp only [processRow, if_neg (by simp [hbF] : ¬rowBlank row = true),
          if_neg (by simp [hbtF] : ¬rowBlank (row.take 7) = true), hmk]
        by_cases hm : hasHeaderMarker row = true
        · rw [if_pos hm, if_pos hm]
        · rw [if_neg hm, if_neg hm,
            if_neg (show ¬(row.length < 7) by omega),
            if_neg (show ¬((row.take 7).length < 7) by omega),
            buildRecord_take]

theorem cleanCell_some_ne {cell : Option String} {s : String}
    (h : cleanCell cell = some s) : s ≠ "" := by
  cases cell with
  | none => simp [cleanCell] at h
  | some t =>
    simp only [cleanCell] at h
    split at h
    case isTrue hc =>
      obtain ⟨ht, hst⟩ := hc
      injection h with h
      subst h
      intro hE
      apply hst
      have hd : (pyStrip t).toList.map (fun c => if c = '\n' then ' ' else c) = [] :=
        congrArg String.data hE
      have h2 : (pyStrip t).toList = [] := List.map_eq_nil_iff.mp hd
      exact congrArg String.mk h2
    case isFalse => exact absurd h (by simp)

/-! ## The claims -/

/-- Claim C1, counterexample: at the institution field the cell
`"台北 \n大學"` does not clean to `"台北 大學"` — the pre-existing space
before the newline survives, and the newline itself becomes a second
space. -/
theorem c1_counterexample :
    fieldValue "校名" (some "台北 \n大學") ≠ Value.str "台北 大學" := by decide

/-- Claim C1 (amended): for every field position, cleaning the cell value
`"台北 \n大學"` yields exactly `"台北  大學"` — leading/trailing whitespace
is removed and the embedded newline character is replaced by a single
space; the space that already preceded the newline is kept, so the
space-newline pair turns into two spaces; the result has no
leading/trailing whitespace. -/
theorem c1_whitespace_cleaning :
    ∀ col ∈ selected_columns,
      fieldValue col (some "台北 \n大學") = Value.str "台北  大學" := by decide

/-- Witness for claim C1 at the institution column. -/
theorem c1_whitespace_cleaning_witness :
    fieldValue "校名" (some "台北 \n大學") = Value.str "台北  大學" :=
  c1_whitespace_cleaning "校名" (by decide)

/-- Claim C2, counterexample: a one-row sequence whose only row passes
every filter yields zero records, not one record per input row — the
first row is discarded unconditionally. -/
theorem c2_counterexample :
    isDataRow sampleRow1 = true ∧
      (clean_and_structure_data [sampleRow1]).length ≠ [sampleRow1].length := by
  decide

/-- Claim C2 (amended): for every RawRow sequence in which every row
passes all filters (not blank, no header marker, at least 7 cells,
truthy code after cleaning), the Normalizer yields exactly one Record
per input row after the first — the first row is unconditionally
discarded — in the same order as the input. -/
theorem c2_one_record_per_later_row (rows : List RawRow)
    (h : ∀ r ∈ rows, isDataRow r = true) :
    clean_and_structure_data rows = rows.tail.map buildRecord := by
  cases rows with
  | nil => rfl
  | cons a t =>
    show t.filterMap processRow = t.map buildRecord
    exact filterMap_processRow_eq_map (fun r hr => h r (by simp [hr]))

/-- Witness for claim C2: three data rows give the two records of the
rows after the first, in order. -/
theorem c2_one_record_per_later_row_witness :
    clean_and_structure_data [sampleRow1, sampleRow2, sampleRow3] =
      [sampleRow2, sampleRow3].map buildRecord :=
  c2_one_record_per_later_row [sampleRow1, sampleRow2, sampleRow3] (by decide)

/-- Claim C3: for every non-empty RawRow sequence the first row is
discarded unconditionally — the output is computed from the remaining
rows alone, so no Record is ever produced from the first row, whatever
its content. -/
theorem c3_first_row_always_discarded :
    ∀ (first : RawRow) (rest : List RawRow),
      clean_and_structure_data (first :: rest) = rest.filterMap processRow :=
  fun _ _ => rfl

/-- Claim C4: a processed row produces a Record only if it has at least
7 cells and its code cell is non-null after cleaning: a row with fewer
than 7 cells yields no Record, and a row whose code cell cleans to null
(the empty/whitespace cell and the `-----` placeholder included) yields
no Record regardless of the other fields. -/
theorem c4_record_requires_cells_and_code (row : RawRow) :
    (row.length < 7 → processRow row = none) ∧
      (fieldValue "系組代碼" (row.getD 0 none) = Value.null →
        processRow row = none) := by
  constructor
  · intro h
    simp only [processRow]
    split_ifs <;> rfl
  · intro h
    have htr : (lookupCode (buildRecord row)).truthy = false := by
      rw [lookupCode_buildRecord, h]; rfl
    simp only [processRow]
    split_ifs with h1 h2 h3 h4
    any_goals rfl
    rw [htr] at h4
    exact absurd h4 (by simp)

/-- Witness for claim C4: a 3-cell row and a 7-cell row whose code cell
is the placeholder both produce no Record. -/
theorem c4_record_requires_cells_and_code_witness :
    processRow shortRow = none ∧ processRow placeholderCodeRow = none :=
  ⟨(c4_record_requires_cells_and_code shortRow).1 (by decide),
   (c4_record_requires_cells_and_code placeholderCodeRow).2 (by decide)⟩

/-- Claim C5: numeric coercion of the two numeric-designated columns —
`"120"` in the admitted-count position becomes the integer `120`;
`"450.5"` in the cutoff-score position becomes the float `450.5`
(the exact rational 901/2); the non-numeric `"同分參酌第3類"` in the
cutoff-score position stays the original string (coercion attempted,
fails, falls back; never an error).  The last two conjuncts exhibit the
branch order — a decimal point selects the float parse even in the
admitted-count position, and its absence selects the integer parse even
in the cutoff-score position. -/
theorem c5_numeric_coercion :
    fieldValue "錄取人數(含外加)" (some "120") = Value.int 120 ∧
      fieldValue "普通生錄取分數" (some "450.5") = Value.float (Rat.divInt 901 2) ∧
      fieldValue "普通生錄取分數" (some "同分參酌第3類") =
        Value.str "同分參酌第3類" ∧
      fieldValue "錄取人數(含外加)" (some "4.5") = Value.float (Rat.divInt 9 2) ∧
      fieldValue "普通生錄取分數" (some "450") = Value.int 450 := by
  decide

/-- Claim C6: for every field position, a cell whose cleaned value
contains the five-hyphen placeholder `-----` is stored as null in the
record — in particular a cell that is exactly `"-----"` becomes null for
every field. -/
theorem c6_placeholder_null :
    ∀ col ∈ selected_columns, ∀ (cell : Option String) (s : String),
      cleanCell cell = some s → containsStr s "-----" = true →
      fieldValue col cell = Value.null := by
  intro col _ cell s hc hs
  have hp : applyPlaceholder (cleanCell cell) = none := by
    rw [hc]
    simp only [applyPlaceholder]
    rw [if_pos ⟨cleanCell_some_ne hc, hs⟩]
  simp only [fieldValue, hp]

/-- Witness for claim C6: the code column with the literal `"-----"`
cell. -/
theorem c6_placeholder_null_witness :
    fieldValue "系組代碼" (some "-----") = Value.null :=
  c6_placeholder_null "系組代碼" (by decide) (some "-----") "-----" (by decide)
    (by decide)

/-- Claim C7: every processed row whose first cell, as text, contains
the code header marker `系組代碼` or the institution marker `校名` is
skipped and produces no Record — the detection is substring-based, so it
also fires on a legitimate 7-cell data row whose first cell merely
contains the marker text. -/
theorem c7_header_marker_skipped :
    ∀ (row : RawRow),
      (containsStr (firstCellText row) "系組代碼" = true ∨
        containsStr (firstCellText row) "校名" = true) →
      processRow row = none := by
  intro row h
  have hm : hasHeaderMarker row = true := by
    unfold hasHeaderMarker
    rcases h with h | h <;> simp [h]
  exact processRow_marker_none hm

/-- Witness for claim C7: a full 7-cell row with a valid code whose
first cell contains the institution marker as a substring is still
skipped. -/
theorem c7_header_marker_skipped_witness :
    processRow markerDataRow = none ∧ 7 ≤ markerDataRow.length ∧
      (cleanCell (markerDataRow.getD 0 none)).isSome = true :=
  ⟨c7_header_marker_skipped markerDataRow (Or.inr (by decide)), by decide, by decide⟩

/-- Claim C8: for a raw table consisting of one leading header row, five
data rows, one repeated header row whose first cell contains `校名`, and
three more data rows (a third page contributing no rows at all), the
Normalizer discards both header rows — the first unconditionally, the
second via marker detection — and yields exactly the 8 records of the
data rows, in the original order. -/
theorem c8_end_to_end_scenario
    (h1 d1 d2 d3 d4 d5 h2 d6 d7 d8 : RawRow)
    (hd : ∀ r ∈ [d1, d2, d3, d4, d5, d6, d7, d8], isDataRow r = true)
    (hm : containsStr (firstCellText h2) "校名" = true) :
    clean_and_structure_data [h1, d1, d2, d3, d4, d5, h2, d6, d7, d8] =
      [d1, d2, d3, d4, d5, d6, d7, d8].map buildRecord ∧
    (clean_and_structure_data [h1, d1, d2, d3, d4, d5, h2, d6, d7, d8]).length = 8 := by
  have hm2 : hasHeaderMarker h2 = true := by
    unfold hasHeaderMarker
    simp [hm]
  have hmain :
      clean_and_structure_data [h1, d1, d2, d3, d4, d5, h2, d6, d7, d8] =
        [d1, d2, d3, d4, d5, d6, d7, d8].map buildRecord := by
    show List.filterMap processRow [d1, d2, d3, d4, d5, h2, d6, d7, d8] = _
    simp only [List.filterMap_cons,
      processRow_eq_some (hd d1 (by simp)), processRow_eq_some (hd d2 (by simp)),
      processRow_eq_some (hd d3 (by simp)), processRow_eq_some (hd d4 (by simp)),
      processRow_eq_some (hd d5 (by simp)), processRow_eq_some (hd d6 (by simp)),
      processRow_eq_some (hd d7 (by simp)), processRow_eq_some (hd d8 (by simp)),
      processRow_marker_none hm2]
    simp
  exact ⟨hmain, by rw [hmain]; simp⟩

/-- Witness for claim C8 at concrete rows. -/
theorem c8_end_to_end_scenario_witness :
    clean_and_structure_data
        [headerRow, sampleRow1, sampleRow2, sampleRow3, sampleRow1, sampleRow2,
          repeatedHeaderRow, sampleRow3, sampleRow1, sampleRow2] =
      [sampleRow1, sampleRow2, sampleRow3, sampleRow1, sampleRow2, sampleRow3,
        sampleRow1, sampleRow2].map buildRecord ∧
    (clean_and_structure_data
        [headerRow, sampleRow1, sampleRow2, sampleRow3, sampleRow1, sampleRow2,
          repeatedHeaderRow, sampleRow3, sampleRow1, sampleRow2]).length = 8 :=
  c8_end_to_end_scenario headerRow sampleRow1 sampleRow2 sampleRow3 sampleRow1
    sampleRow2 repeatedHeaderRow sampleRow3 sampleRow1 sampleRow2
    (by decide) (by decide)

/-- Claim C9: the fetch-and-extract stage returns no value exactly when
the HTTP request fails (timeout, connection failure, non-success
status), when the document cannot be opened or parsed, or when zero rows
were accumulated across every page; otherwise it returns the non-empty
accumulated row sequence.  A page where neither the ruled-line nor the
text-alignment strategy finds a table contributes nothing and raises no
error. -/
theorem c9_fetch_extract_contract (fetch : FetchResult) (parse : ParseResult) :
    (download_and_parse_pdf fetch parse = none ↔
      (∃ e, fetch = FetchResult.failure e) ∨ parse = ParseResult.failure ∨
        allRows parse = []) ∧
    (∀ rows, download_and_parse_pdf fetch parse = some rows →
      rows = allRows parse ∧ rows ≠ []) ∧
    (∀ p : PdfPage, p.linesTable = none → p.textTable = none →
      extractPageRows p = []) := by
  refine ⟨?_, ?_, ?_⟩
  · cases fetch with
    | failure e => simp [download_and_parse_pdf]
    | success =>
      cases parse with
      | failure => simp [download_and_parse_pdf]
      | success pages =>
        simp [download_and_parse_pdf, allRows, List.isEmpty_iff]
  · intro rows h
    cases fetch with
    | failure e => simp [download_and_parse_pdf] at h
    | success =>
      cases parse with
      | failure => simp [download_and_parse_pdf] at h
      | success pages =>
        simp only [download_and_parse_pdf] at h
        split at h
        next => exact absurd h (by simp)
        next hF =>
          injection h with h
          subst h
          exact ⟨rfl, fun hE => hF (by rw [hE]; rfl)⟩
  · intro p h1 h2
    simp [extractPageRows, h1, h2]

/-- Witness for claim C9: a successful fetch over one page with a
ruled-line table and one page where both strategies fail yields exactly
that table's rows, and the empty page contributes nothing. -/
theorem c9_fetch_extract_contract_witness :
    ([sampleRow1] = allRows (ParseResult.success pagesSample) ∧
      [sampleRow1] ≠ []) ∧
    extractPageRows ⟨none, none⟩ = [] :=
  ⟨(c9_fetch_extract_contract FetchResult.success
      (ParseResult.success pagesSample)).2.1 [sampleRow1] (by decide),
   (c9_fetch_extract_contract FetchResult.success
      (ParseResult.success pagesSample)).2.2 ⟨none, none⟩ rfl rfl⟩

/-- Claim C10: every record built by the Normalizer has exactly the 7
field names of `selected_columns`, in that fixed insertion order (its
values lie in `Value`, i.e. are a string, an integer, a float or null,
by construction); cells at positions beyond index 6 never affect the
outcome — processing a row is the same as processing its first 7 cells,
and for a row of at least 7 cells the record built from the first 7
cells is the whole record, so longer rows are truncated, not
rejected. -/
theorem c10_record_shape (row : RawRow) :
    (buildRecord row).map Prod.fst = selected_columns ∧
      processRow row = processRow (row.take 7) ∧
      (7 ≤ row.length → buildRecord (row.take 7) = buildRecord row) := by
  refine ⟨?_, processRow_take row, fun _ => buildRecord_take row⟩
  rw [buildRecord_explicit]
  rfl

/-- Witness for claim C10 at an 8-cell row. -/
theorem c10_record_shape_witness :
    (buildRecord longRow).map Prod.fst = selected_columns ∧
      buildRecord (longRow.take 7) = buildRecord longRow :=
  ⟨(c10_record_shape longRow).1, (c10_record_shape longRow).2.2 (by decide)⟩
